import Mathlib

/-!
Verification development for the PDF viewer component in `src/app/page.tsx`
(the `PDFViewer` component with structured per-page notes, lines 925-1682).

The component's React state is embedded as the structure `ViewerState`; each
event handler and effect body is embedded as a pure state transformation.
Numeric view state (zoom scale, pan offset, page dimensions) is embedded over
`ℚ`, the idealisation of JS number arithmetic used throughout.  Note values
stored in the `notes` map are JSON strings in the source; since every stored
string is produced by `JSON.stringify` of a `DocumentNotes` value, the map is
embedded as storing a `NoteData`, either a structured `DocumentNotes` value
(`JSON.parse` succeeds and returns it) or a raw non-JSON string (`JSON.parse`
throws).  Session storage under the single key used by the component
(`pdfNotes`) is embedded as an `Option PageNotes` field of the state, again
identifying a stored string with the parsed value it round-trips to.
-/

namespace PDFViewer

/-- A page note entry as produced by `getEmptyNotes` / `updateNoteJson`
(`interface PageNote`; the optional `layout` field is never populated by this
component and is omitted). -/
structure PageNote where
  number : Nat
  text : String
deriving DecidableEq, Repr

structure NotesMetadata where
  total_pages : Nat
deriving DecidableEq, Repr

structure DocumentBody where
  pages : List PageNote
  metadata : NotesMetadata
deriving DecidableEq, Repr

/-- `interface DocumentNotes`: the JSON envelope stored per page. -/
structure DocumentNotes where
  document : DocumentBody
deriving DecidableEq, Repr

/-- A value stored in the `notes` map (a string in the source):
`json d` stands for `JSON.stringify d`, `text s` for a string on which
`JSON.parse` throws. -/
inductive NoteData where
  | json (d : DocumentNotes)
  | text (s : String)
deriving DecidableEq, Repr

/-- `JSON.parse` on a stored note value. -/
def parseNoteData : NoteData → Option DocumentNotes
  | NoteData.json d => some d
  | NoteData.text _ => none

def stringifyPageNote (p : PageNote) : String :=
  "\x7b\"number\":" ++ toString p.number ++ ",\"text\":\"" ++ p.text ++ "\"\x7d"

/-- `JSON.stringify` of a `DocumentNotes` envelope (used only where the source
displays the raw stored string). -/
def stringifyDocumentNotes (d : DocumentNotes) : String :=
  "\x7b\"document\":\x7b\"pages\":[" ++
    String.intercalate "," (d.document.pages.map stringifyPageNote) ++
    "],\"metadata\":\x7b\"total_pages\":" ++
    toString d.document.metadata.total_pages ++ "\x7d\x7d\x7d"

/-- The string a stored note value denotes. -/
def noteDataString : NoteData → String
  | NoteData.json d => stringifyDocumentNotes d
  | NoteData.text s => s

/-- `interface PageNotes`: the object mapping page numbers to stored strings. -/
def PageNotes := List (Nat × NoteData)

instance : DecidableEq PageNotes := by
  unfold PageNotes
  infer_instance

/-- Property lookup `notes[pageNum]` on the notes object. -/
def notesLookup (m : PageNotes) (k : Nat) : Option NoteData :=
  match m.find? (fun p => p.1 == k) with
  | some p => some p.2
  | none => none

/-- The object spread update `{...prev, [k]: v}`. -/
def notesInsert (m : PageNotes) (k : Nat) (v : NoteData) : PageNotes :=
  (k, v) :: m.filter (fun p => p.1 != k)

/-- The JS expression `numPages || 1` for `numPages : number | null`
(`null` and `0` are falsy). -/
def jsOrOne : Option Nat → Nat
  | some n => if n = 0 then 1 else n
  | none => 1

/-- `getEmptyNotes(totalPages, specificPage?)`: empty envelope for one page or
for pages `1..totalPages`. -/
def getEmptyNotes (totalPages : Nat) (specificPage : Option Nat) : DocumentNotes :=
  match specificPage with
  | some p => ⟨⟨[⟨p, ""⟩], ⟨totalPages⟩⟩⟩
  | none => ⟨⟨(List.range totalPages).map (fun i => ⟨i + 1, ""⟩), ⟨totalPages⟩⟩⟩

/-- Lines 1021-1034 of `updateNoteJson`: parse the stored note for the current
page, falling back to a fresh empty envelope when absent or unparsable. -/
def updateNoteBase (notes : PageNotes) (pageNum : Nat) (numPages : Option Nat) : DocumentNotes :=
  match notesLookup notes pageNum with
  | some nd =>
    match parseNoteData nd with
    | some d => d
    | none => getEmptyNotes (jsOrOne numPages) none
  | none => getEmptyNotes (jsOrOne numPages) none

/-- Lines 1037-1050: `findIndex` on `pages` for the current page, updating the
first matching entry's `text`, else pushing a new entry at the end. -/
def updateFirst (pages : List PageNote) (n : Nat) (t : String) : List PageNote :=
  match pages with
  | [] => [⟨n, t⟩]
  | p :: rest =>
    if p.number == n then ⟨p.number, t⟩ :: rest
    else p :: updateFirst rest n t

/-- `updateNoteJson(newText)`: rebuild the stored JSON envelope for the current
page with `newText`, bumping `total_pages` to at least `numPages || 1`. -/
def updateNoteJson (notes : PageNotes) (pageNum : Nat) (numPages : Option Nat)
    (newText : String) : NoteData :=
  let noteObj := updateNoteBase notes pageNum numPages
  NoteData.json ⟨⟨updateFirst noteObj.document.pages pageNum newText,
    ⟨max noteObj.document.metadata.total_pages (jsOrOne numPages)⟩⟩⟩

/-- A loaded PDF document: the pages' natural (scale 1.0) viewport sizes.
`getPage` is 1-based and rejects out-of-range requests. -/
structure PDFDoc where
  pages : List (ℚ × ℚ)
deriving DecidableEq, Repr

def PDFDoc.numPages (d : PDFDoc) : Nat := d.pages.length

def PDFDoc.getPage (d : PDFDoc) (n : Nat) : Option (ℚ × ℚ) :=
  if 1 ≤ n then d.pages.get? (n - 1) else none

/-- A selected file: only `name` and `type` are inspected by the component. -/
structure JSFile where
  name : String
  type : String
deriving DecidableEq, Repr

inductive LoadSource where
  | default
  | file
deriving DecidableEq, Repr

/-- The component's `useState` store (the refs `canvasRef`/`containerRef`/
`renderTaskRef`/`fileInputRef` are not state and are passed separately where
needed). -/
structure ViewerState where
  isLoading : Bool
  error : Option String
  scale : ℚ
  pageNum : Nat
  numPages : Option Nat
  pdfDoc : Option PDFDoc
  isPanning : Bool
  panPosition : ℚ × ℚ
  startPanPos : ℚ × ℚ
  pdfFile : Option JSFile
  fileName : String
  isPageRendering : Bool
  pdfLoadSource : Option LoadSource
  isEditingPage : Bool
  pageInputValue : String
  notes : PageNotes
  currentNote : String
  sessionPdfNotes : Option PageNotes
deriving DecidableEq

/-- The `useState` initial values. -/
def initialState : ViewerState where
  isLoading := true
  error := none
  scale := 1
  pageNum := 1
  numPages := none
  pdfDoc := none
  isPanning := false
  panPosition := ((0 : ℚ), (0 : ℚ))
  startPanPos := ((0 : ℚ), (0 : ℚ))
  pdfFile := none
  fileName := "No file selected"
  isPageRendering := false
  pdfLoadSource := none
  isEditingPage := false
  pageInputValue := ""
  notes := []
  currentNote := ""
  sessionPdfNotes := none

def MAX_NOTE_LENGTH : Nat := 10000

/-- `handleNoteChange`: accept the textarea text only up to the character
limit, updating both the current note and the stored envelope for the current
page (the notes-persistence effect then mirrors `notes` to session storage). -/
def handleNoteChange (st : ViewerState) (newText : String) : ViewerState :=
  if newText.length ≤ MAX_NOTE_LENGTH then
    let updatedJson := updateNoteJson st.notes st.pageNum st.numPages newText
    let newNotes := notesInsert st.notes st.pageNum updatedJson
    { st with currentNote := newText, notes := newNotes,
              sessionPdfNotes := some newNotes }
  else st

/-- `goToNextPage`. -/
def goToNextPage (st : ViewerState) : ViewerState :=
  if st.pageNum < jsOrOne st.numPages then { st with pageNum := st.pageNum + 1 }
  else st

/-- `goToPrevPage`. -/
def goToPrevPage (st : ViewerState) : ViewerState :=
  if st.pageNum > 1 then { st with pageNum := st.pageNum - 1 }
  else st

/-- `goToPage(page)`. -/
def goToPage (st : ViewerState) (page : Nat) : ViewerState :=
  if 1 ≤ page ∧ page ≤ jsOrOne st.numPages then { st with pageNum := page }
  else st

/-- `handlePageInputChange`: strip non-digits (`value.replace` with the
non-digit pattern) before storing the input value. -/
def handlePageInputChange (st : ViewerState) (value : String) : ViewerState :=
  { st with pageInputValue := String.mk (value.data.filter Char.isDigit) }

/-- `submitPageChange`: `parseInt` on the digit-only input value is `toNat?`
(`NaN`, i.e. `none`, exactly on the empty string); a parsed value goes through
the `goToPage` guard and editing mode always closes. -/
def submitPageChange (st : ViewerState) : ViewerState :=
  let st1 :=
    match st.pageInputValue.toNat? with
    | some newPage => goToPage st newPage
    | none => st
  { st1 with isEditingPage := false }

/-- `zoomIn`. -/
def zoomIn (st : ViewerState) : ViewerState :=
  { st with scale := min (st.scale + 1/4) 5 }

/-- `zoomOut`. -/
def zoomOut (st : ViewerState) : ViewerState :=
  { st with scale := max (st.scale - 1/4) (1/2) }

/-- `fitToPage`: no-op when no document or no container; otherwise scale to
the smaller of the width and height container-to-page ratios and reset the
pan.  A `getPage` rejection reaches the `catch`, which only logs. -/
def fitToPage (st : ViewerState) (container : Option (ℚ × ℚ)) : ViewerState :=
  match st.pdfDoc, container with
  | some doc, some c =>
    match doc.getPage st.pageNum with
    | some vp =>
      let scaleWidth := c.1 / vp.1
      let scaleHeight := c.2 / vp.2
      let newScale := min scaleWidth scaleHeight
      { st with scale := newScale, panPosition := ((0 : ℚ), (0 : ℚ)) }
    | none => st
  | _, _ => st

/-- `handleFileChange`: a selected PDF replaces the document wholesale and
clears notes and view state; a selected non-PDF only sets the error; no
selection does nothing. -/
def handleFileChange (st : ViewerState) (files : List JSFile) : ViewerState :=
  match files with
  | [] => st
  | f :: _ =>
    if f.type = "application/pdf" then
      { st with pdfFile := some f, fileName := f.name, pageNum := 1,
                panPosition := ((0 : ℚ), (0 : ℚ)), error := none,
                pdfLoadSource := some LoadSource.file, isEditingPage := false,
                notes := [], currentNote := "", sessionPdfNotes := none,
                pdfDoc := none }
    else { st with error := some ("Please select a valid PDF file") }

/-- Lines 1099-1140, the page-change notes effect: extract the current page's
text from its stored envelope, falling back to the raw stored string; when no
note is stored for the page and the page count is known, store a fresh empty
envelope for it.  Returns the new current note and the new notes map. -/
def pageChangeEffect (pageNum : Nat) (notes : PageNotes) (numPages : Option Nat) :
    String × PageNotes :=
  match notesLookup notes pageNum with
  | some nd =>
    match parseNoteData nd with
    | some d =>
      match d.document.pages.find? (fun p => p.number == pageNum) with
      | some pageNote => (pageNote.text, notes)
      | none => (noteDataString nd, notes)
    | none => (noteDataString nd, notes)
  | none =>
    match numPages with
    | some n =>
      if 0 < n then
        ("", notesInsert notes pageNum (updateNoteJson notes pageNum numPages ""))
      else ("", notes)
    | none => ("", notes)

/-- Moving the view to page `p` (a `setPageNum` through any navigation path)
followed by the page-change notes effect and the notes-persistence effect. -/
def navigateTo (st : ViewerState) (p : Nat) : ViewerState :=
  let st1 := { st with pageNum := p }
  let r := pageChangeEffect st1.pageNum st1.notes st1.numPages
  { st1 with currentNote := r.1, notes := r.2, sessionPdfNotes := some r.2 }

/-- A thrown JS value: an `Error` object carries `name` and `message`;
anything else fails the `instanceof Error` test. -/
inductive JSValue where
  | errorVal (name message : String)
  | otherVal
deriving DecidableEq, Repr

/-- `error instanceof Error ? error.message : fallback`. -/
def errorMessage (e : JSValue) (fallback : String) : String :=
  match e with
  | JSValue.errorVal _ m => m
  | JSValue.otherVal => fallback

/-- The `catch` of `loadPDF` (lines 1363-1371). -/
def loadPDFCatch (st : ViewerState) (isCancelled : Bool) (e : JSValue) : ViewerState :=
  if isCancelled then st
  else { st with error := some (errorMessage e ("Failed to load PDF")),
                 isLoading := false }

/-- The `catch` of `renderPage` (lines 1468-1477). -/
def renderPageCatch (st : ViewerState) (isCancelled : Bool) (e : JSValue) : ViewerState :=
  if isCancelled then st
  else { st with error := some (errorMessage e ("Failed to render PDF")),
                 isLoading := false, isPageRendering := false }

/-- The error banner (lines 1493-1497): the JSX guard `error && ...` renders
the banner exactly when the error string is truthy, i.e. set and non-empty. -/
def errorBanner (st : ViewerState) : Option String :=
  match st.error with
  | some m => if m = "" then none else some ("Error: " ++ m)
  | none => none

/-- Lines 1413-1416 of `renderPage`: reset the pan only when the page being
rendered differs from the page recorded on the previously stored render task
(run with `isCancelled = false`). -/
def renderPagePanUpdate (prevTaskPage : Option Nat) (pageNum : Nat)
    (pan : ℚ × ℚ) : ℚ × ℚ :=
  match prevTaskPage with
  | some m => if pageNum ≠ m then ((0 : ℚ), (0 : ℚ)) else pan
  | none => pan

/-- One uncontended run of the `renderPage` effect body: mark rendering,
apply the pan update, then on a successful `getPage` store the new render
task's page number and clear the flags; a `getPage` rejection `eFail` reaches
the `catch`. -/
def renderPageRun (st : ViewerState) (prevTaskPage : Option Nat) (eFail : JSValue) :
    ViewerState × Option Nat :=
  match st.pdfDoc with
  | none => (st, prevTaskPage)
  | some doc =>
    let st1 := { st with isPageRendering := true }
    let st2 := { st1 with
      panPosition := renderPagePanUpdate prevTaskPage st1.pageNum st1.panPosition }
    match doc.getPage st2.pageNum with
    | some _ =>
      ({ st2 with isLoading := false, isPageRendering := false }, some st2.pageNum)
    | none => (renderPageCatch st2 false eFail, prevTaskPage)

/-!
Event-loop model of the render effect (lines 1396-1489).  Each effect run
spawns one invocation of the async function `renderPage`; the effect cleanup
sets that invocation's `isCancelled` flag and calls `cancel()` on the task
currently stored in `renderTaskRef`.  `renderPage` suspends at its `await`s:
after `pdfDoc.getPage` resolves it runs synchronously up to the `await` on the
stored previous task's promise (skipped when the ref is empty), and once that
promise has settled it synchronously creates its own render task, stores it in
the ref, and awaits it.  Between the cleanup's `isCancelled = true` and the
creation of the new task the code never re-checks `isCancelled`, which is what
the reachability theorem below exploits.  Render tasks settle asynchronously,
whether by finishing or by a requested cancellation being delivered.
-/

/-- Program counter of one suspended `renderPage` invocation. -/
inductive RPc where
  | atGetPage
  | atAwaitPrev (tid : Nat)
  | atAwaitOwn (tid : Nat)
  | finished
deriving DecidableEq, Repr

structure RInst where
  pc : RPc
  cancelled : Bool
deriving DecidableEq, Repr

structure RTask where
  settled : Bool
  cancelRequested : Bool
deriving DecidableEq, Repr

/-- The render-effect system state: the tasks created so far (index = task
id), the ref `renderTaskRef`, and the `renderPage` invocations in creation
order. -/
structure RSys where
  tasks : List RTask
  ref : Option Nat
  insts : List RInst
deriving DecidableEq, Repr

def RSys.init : RSys := ⟨[], none, []⟩

def modifyAt (f : α → α) : List α → Nat → List α
  | [], _ => []
  | a :: l, 0 => f a :: l
  | a :: l, n + 1 => a :: modifyAt f l n

/-- The effect cleanup's `renderTaskRef.current.cancel()`. -/
def cancelRef (s : RSys) : RSys :=
  match s.ref with
  | some tid =>
    { s with tasks := modifyAt (fun t => { t with cancelRequested := true }) s.tasks tid }
  | none => s

/-- The effect cleanup's `isCancelled = true` for the most recent run. -/
def markLastCancelled (insts : List RInst) : List RInst :=
  modifyAt (fun i => { i with cancelled := true }) insts (insts.length - 1)

/-- Scheduler events: an effect re-run (cleanup of the previous run, then a
new `renderPage` invocation suspended at `getPage`); resumption of an
invocation whose awaited promise resolved; settlement of a render task. -/
inductive RAct where
  | effectRun
  | getPageResolve (i : Nat)
  | prevSettledResume (i : Nat)
  | taskSettle (tid : Nat)
  | ownSettledResume (i : Nat)
deriving DecidableEq, Repr

/-- One guarded step of the event-loop model; `none` when the event is not
enabled in `s`. -/
def stepAct (a : RAct) (s : RSys) : Option RSys :=
  match a with
  | RAct.effectRun =>
    let s1 := cancelRef { s with insts := markLastCancelled s.insts }
    some { s1 with insts := s1.insts ++ [⟨RPc.atGetPage, false⟩] }
  | RAct.getPageResolve i =>
    match s.insts.get? i with
    | some inst =>
      match inst.pc with
      | RPc.atGetPage =>
        match s.ref with
        | some tid =>
          some { s with insts := modifyAt (fun x => { x with pc := RPc.atAwaitPrev tid }) s.insts i }
        | none =>
          let tid := s.tasks.length
          some { s with tasks := s.tasks ++ [⟨false, false⟩], ref := some tid,
                        insts := modifyAt (fun x => { x with pc := RPc.atAwaitOwn tid }) s.insts i }
      | _ => none
    | none => none
  | RAct.prevSettledResume i =>
    match s.insts.get? i with
    | some inst =>
      match inst.pc with
      | RPc.atAwaitPrev tid =>
        match s.tasks.get? tid with
        | some t =>
          if t.settled then
            let nid := s.tasks.length
            some { s with tasks := s.tasks ++ [⟨false, false⟩], ref := some nid,
                          insts := modifyAt (fun x => { x with pc := RPc.atAwaitOwn nid }) s.insts i }
          else none
        | none => none
      | _ => none
    | none => none
  | RAct.taskSettle tid =>
    match s.tasks.get? tid with
    | some t =>
      if t.settled then none
      else some { s with tasks := modifyAt (fun x => { x with settled := true }) s.tasks tid }
    | none => none
  | RAct.ownSettledResume i =>
    match s.insts.get? i with
    | some inst =>
      match inst.pc with
      | RPc.atAwaitOwn tid =>
        match s.tasks.get? tid with
        | some t =>
          if t.settled then
            some { s with insts := modifyAt (fun x => { x with pc := RPc.finished }) s.insts i }
          else none
        | none => none
      | _ => none
    | none => none

def runActs (acts : List RAct) (s : RSys) : Option RSys :=
  match acts with
  | [] => some s
  | a :: rest =>
    match stepAct a s with
    | some s1 => runActs rest s1
    | none => none

/-- Number of render tasks created but not yet settled. -/
def unsettledCount (s : RSys) : Nat :=
  (s.tasks.filter (fun t => !t.settled)).length

/-- The interleaving: the first effect run starts task 0; two further effect
re-runs (cleanups cancel task 0) leave two invocations suspended at `getPage`;
both then reach the `await` on task 0's promise; task 0's cancellation is
delivered; both resume and each creates its own render task. -/
def doubleRenderTrace : List RAct :=
  [RAct.effectRun, RAct.getPageResolve 0, RAct.effectRun, RAct.effectRun,
   RAct.getPageResolve 1, RAct.getPageResolve 2, RAct.taskSettle 0,
   RAct.prevSettledResume 1, RAct.prevSettledResume 2]

/-- The zoom controls reachable from the toolbar. -/
inductive ZoomOp where
  | zin
  | zout
deriving DecidableEq, Repr

def applyZoom (st : ViewerState) : ZoomOp → ViewerState
  | ZoomOp.zin => zoomIn st
  | ZoomOp.zout => zoomOut st

def runZoom (ops : List ZoomOp) (st : ViewerState) : ViewerState :=
  ops.foldl applyZoom st

/-- The page-navigation operations: next/prev buttons, a direct `goToPage`
call, and typing `s` into the page-number input followed by Enter. -/
inductive NavOp where
  | next
  | prev
  | goto (p : Nat)
  | typed (s : String)
deriving DecidableEq, Repr

def applyNav (st : ViewerState) : NavOp → ViewerState
  | NavOp.next => goToNextPage st
  | NavOp.prev => goToPrevPage st
  | NavOp.goto p => goToPage st p
  | NavOp.typed s => submitPageChange (handlePageInputChange st s)

def runNav (ops : List NavOp) (st : ViewerState) : ViewerState :=
  ops.foldl applyNav st

/-- The page-bounds invariant: the current page lies in `[1, totalPages]`,
the total being treated as `1` while unknown. -/
def pageInv (st : ViewerState) : Prop :=
  1 ≤ st.pageNum ∧ st.pageNum ≤ jsOrOne st.numPages

instance (st : ViewerState) : Decidable (pageInv st) := by
  unfold pageInv
  infer_instance

/-- A loaded three-page document with 600x800pt pages. -/
def demoDoc : PDFDoc :=
  ⟨[((600 : ℚ), (800 : ℚ)), ((600 : ℚ), (800 : ℚ)), ((600 : ℚ), (800 : ℚ))]⟩

/-- The state right after `demoDoc` has loaded. -/
def demoState : ViewerState :=
  { initialState with pdfDoc := some demoDoc, numPages := some 3 }

/-- A loaded single-page 600x800pt document, viewed in a small container. -/
def fitCexState : ViewerState :=
  { initialState with pdfDoc := some (⟨[((600 : ℚ), (800 : ℚ))]⟩ : PDFDoc),
                      numPages := some 1 }

/-! Helper lemmas about the notes map. -/

lemma find?_key_filter (l : List (Nat × NoteData)) (k s : Nat) (h : s ≠ k) :
    (l.filter (fun p => p.1 != k)).find? (fun p => p.1 == s) =
      l.find? (fun p => p.1 == s) := by
  induction l with
  | nil => rfl
  | cons a l ih =>
    by_cases hk : a.1 = k
    · rw [List.filter_cons_of_neg (by simp [hk]),
        List.find?_cons_of_neg _ (by simp [hk]; exact Ne.symm h), ih]
    · by_cases hs : a.1 = s
      · rw [List.filter_cons_of_pos (by simp [hk]),
          List.find?_cons_of_pos _ (by simp [hs]),
          List.find?_cons_of_pos _ (by simp [hs])]
      · rw [List.filter_cons_of_pos (by simp [hk]),
          List.find?_cons_of_neg _ (by simp [hs]),
          List.find?_cons_of_neg _ (by simp [hs]), ih]

lemma notesLookup_insert_self (m : PageNotes) (k : Nat) (v : NoteData) :
    notesLookup (notesInsert m k v) k = some v := by
  unfold notesLookup notesInsert
  rw [List.find?_cons_of_pos _ (by simp)]

lemma notesLookup_insert_ne (m : PageNotes) (k s : Nat) (v : NoteData) (h : s ≠ k) :
    notesLookup (notesInsert m k v) s = notesLookup m s := by
  unfold notesLookup notesInsert
  rw [List.find?_cons_of_neg _ (by simp only [beq_iff_eq]; exact Ne.symm h),
    find?_key_filter m k s h]

lemma find?_updateFirst (pages : List PageNote) (n : Nat) (t : String) :
    (updateFirst pages n t).find? (fun p => p.number == n) = some ⟨n, t⟩ := by
  induction pages with
  | nil =>
    unfold updateFirst
    rw [List.find?_cons_of_pos _ (by simp)]
  | cons p rest ih =>
    unfold updateFirst
    by_cases hp : p.number == n
    · rw [if_pos hp]
      rw [List.find?_cons_of_pos _ (by simpa using hp)]
      simp only [beq_iff_eq] at hp
      rw [hp]
    · rw [if_neg hp]
      rw [List.find?_cons_of_neg _ (by simpa using hp)]
      exact ih

lemma pageChangeEffect_found (p : Nat) (notes : PageNotes) (np : Option Nat)
    (d : DocumentNotes) (pn : PageNote)
    (h1 : notesLookup notes p = some (NoteData.json d))
    (h2 : d.document.pages.find? (fun x => x.number == p) = some pn) :
    pageChangeEffect p notes np = (pn.text, notes) := by
  simp [pageChangeEffect, h1, parseNoteData, h2]

lemma pageChangeEffect_preserves_other (q s : Nat) (notes : PageNotes)
    (np : Option Nat) (hs : s ≠ q) :
    notesLookup (pageChangeEffect q notes np).2 s = notesLookup notes s := by
  unfold pageChangeEffect
  repeat' split
  all_goals first
    | rfl
    | exact notesLookup_insert_ne _ _ _ _ hs

/-! Claim theorems. -/

/-- Claim C1: the claim asserts that in every reachable state at most one
render task is uncompleted.  In the event-loop model of the render effect,
the concrete interleaving `doubleRenderTrace` (two effect re-runs while the
first invocation's task is in flight, both new invocations passing the await
on that task's settled promise) is accepted by the guarded step function and
ends in a state with two unsettled render tasks, because `renderPage` never
re-checks `isCancelled` before creating its own task. -/
theorem renderEffect_two_tasks_in_flight :
    (runActs doubleRenderTrace RSys.init).map unsettledCount = some 2 := by
  decide

/-- Claim C7: within a run of the render effect body, the pan offset is reset
to the origin exactly when the page being rendered differs from the page
recorded on the previously stored render task; a scale-only re-run (same
recorded page) leaves the pan offset unchanged. -/
theorem renderPage_pan_reset (st : ViewerState) (doc : PDFDoc)
    (prev : Option Nat) (m : Nat) (e : JSValue) (hdoc : st.pdfDoc = some doc) :
    (prev = some m → st.pageNum ≠ m →
      (renderPageRun st prev e).1.panPosition = ((0 : ℚ), (0 : ℚ))) ∧
    (prev = some st.pageNum →
      (renderPageRun st prev e).1.panPosition = st.panPosition) := by
  constructor
  · intro hp hne
    subst hp
    simp only [renderPageRun, hdoc]
    split <;> simp [renderPagePanUpdate, renderPageCatch, hne]
  · intro hp
    subst hp
    simp only [renderPageRun, hdoc]
    split <;> simp [renderPagePanUpdate, renderPageCatch]

/-- Witness for C7 on the loaded demo document at page 1 with a previous
render task recorded for page 2. -/
theorem renderPage_pan_reset_witness :
    demoState.pdfDoc = some demoDoc ∧
    ((some 2 = some 2 → demoState.pageNum ≠ 2 →
       (renderPageRun demoState (some 2) JSValue.otherVal).1.panPosition =
         ((0 : ℚ), (0 : ℚ))) ∧
     (some 2 = some demoState.pageNum →
       (renderPageRun demoState (some 2) JSValue.otherVal).1.panPosition =
         demoState.panPosition)) :=
  ⟨rfl, renderPage_pan_reset demoState demoDoc (some 2) 2 JSValue.otherVal rfl⟩

/-- Claim C8: `handleNoteChange` accepts a note text only up to
`MAX_NOTE_LENGTH` characters, storing it as the current note and as the
current page's envelope in the notes map; a longer text leaves the whole
state unchanged. -/
theorem handleNoteChange_bounded (st : ViewerState) (t : String) :
    (t.length ≤ MAX_NOTE_LENGTH →
      (handleNoteChange st t).currentNote = t ∧
      notesLookup (handleNoteChange st t).notes st.pageNum =
        some (updateNoteJson st.notes st.pageNum st.numPages t)) ∧
    (MAX_NOTE_LENGTH < t.length → handleNoteChange st t = st) := by
  constructor
  · intro h
    constructor
    · simp [handleNoteChange, h]
    · simp only [handleNoteChange, if_pos h]
      exact notesLookup_insert_self _ _ _
  · intro h
    have hn : ¬ t.length ≤ MAX_NOTE_LENGTH := by omega
    simp [handleNoteChange, hn]

/-- Witness for C8: a two-character note is accepted and stored. -/
theorem handleNoteChange_bounded_witness :
    ("hi").length ≤ MAX_NOTE_LENGTH ∧
    ((handleNoteChange initialState ("hi")).currentNote = ("hi") ∧
     notesLookup (handleNoteChange initialState ("hi")).notes
         initialState.pageNum =
       some (updateNoteJson initialState.notes initialState.pageNum
         initialState.numPages ("hi"))) :=
  ⟨by decide, (handleNoteChange_bounded initialState ("hi")).1 (by decide)⟩

/-- Claim C9 counterexample: a thrown `Error` whose `message` is the empty
string (still an `Error`, so its message is stored) sets the error state to
the empty string, which is falsy, so the banner guard renders nothing — the
error text is not rendered to the user. -/
theorem pdf_error_banner_empty_message :
    (loadPDFCatch initialState false (JSValue.errorVal ("Error") (""))).error =
      some ("") ∧
    errorBanner
        (loadPDFCatch initialState false (JSValue.errorVal ("Error") (""))) =
      none := by
  exact ⟨rfl, rfl⟩

/-- Claim C9 (amended): an uncancelled load or render failure stores the
thrown `Error`'s message (or the fixed fallback text for non-`Error` values)
in the error state and clears the loading flag; the banner renders that text
whenever it is non-empty (the banner is guarded by the error string's
truthiness, so an empty `Error` message renders no banner). -/
theorem pdf_error_surfaced (st : ViewerState) (n m : String) :
    (loadPDFCatch st false (JSValue.errorVal n m)).error = some m ∧
    (loadPDFCatch st false (JSValue.errorVal n m)).isLoading = false ∧
    (loadPDFCatch st false JSValue.otherVal).error =
      some ("Failed to load PDF") ∧
    (renderPageCatch st false (JSValue.errorVal n m)).error = some m ∧
    (renderPageCatch st false (JSValue.errorVal n m)).isLoading = false ∧
    (renderPageCatch st false JSValue.otherVal).error =
      some ("Failed to render PDF") ∧
    (m ≠ "" →
      errorBanner (loadPDFCatch st false (JSValue.errorVal n m)) =
        some ("Error: " ++ m)) ∧
    (m ≠ "" →
      errorBanner (renderPageCatch st false (JSValue.errorVal n m)) =
        some ("Error: " ++ m)) ∧
    errorBanner (loadPDFCatch st false JSValue.otherVal) =
      some ("Error: Failed to load PDF") ∧
    errorBanner (renderPageCatch st false JSValue.otherVal) =
      some ("Error: Failed to render PDF") := by
  refine ⟨rfl, rfl, rfl, rfl, rfl, rfl, ?_, ?_, ?_, ?_⟩
  · intro hm
    show (if m = "" then none else some ("Error: " ++ m)) =
      some ("Error: " ++ m)
    rw [if_neg hm]
  · intro hm
    show (if m = "" then none else some ("Error: " ++ m)) =
      some ("Error: " ++ m)
    rw [if_neg hm]
  · show (if ("Failed to load PDF" : String) = "" then (none : Option String)
        else some ("Error: " ++ "Failed to load PDF")) =
      some ("Error: Failed to load PDF")
    rw [if_neg (by decide)]
    rfl
  · show (if ("Failed to render PDF" : String) = "" then (none : Option String)
        else some ("Error: " ++ "Failed to render PDF")) =
      some ("Error: Failed to render PDF")
    rw [if_neg (by decide)]
    rfl

/-- Witness for the amended C9 with a concrete non-empty `Error` message. -/
theorem pdf_error_surfaced_witness :
    ("Invalid PDF structure" : String) ≠ "" ∧
    errorBanner (loadPDFCatch initialState false
        (JSValue.errorVal ("TypeError") ("Invalid PDF structure"))) =
      some ("Error: " ++ "Invalid PDF structure") ∧
    errorBanner (renderPageCatch initialState false
        (JSValue.errorVal ("TypeError") ("Invalid PDF structure"))) =
      some ("Error: " ++ "Invalid PDF structure") :=
  ⟨by decide,
   (pdf_error_surfaced initialState ("TypeError")
       ("Invalid PDF structure")).2.2.2.2.2.2.1 (by decide),
   (pdf_error_surfaced initialState ("TypeError")
       ("Invalid PDF structure")).2.2.2.2.2.2.2.1 (by decide)⟩

/-- Claim C6: selecting a PDF file clears the notes map, the current note and
the stored session notes, resets the page to 1 and the pan to the origin,
clears the error, and discards the loaded document handle. -/
theorem handleFileChange_pdf_resets (st : ViewerState) (f : JSFile)
    (rest : List JSFile) (h : f.type = "application/pdf") :
    (handleFileChange st (f :: rest)).notes = [] ∧
    (handleFileChange st (f :: rest)).currentNote = "" ∧
    (handleFileChange st (f :: rest)).sessionPdfNotes = none ∧
    (handleFileChange st (f :: rest)).pageNum = 1 ∧
    (handleFileChange st (f :: rest)).panPosition = ((0 : ℚ), (0 : ℚ)) ∧
    (handleFileChange st (f :: rest)).error = none ∧
    (handleFileChange st (f :: rest)).pdfDoc = none ∧
    (handleFileChange st (f :: rest)).pdfFile = some f := by
  simp [handleFileChange, h]

/-- Witness for C6 on a concrete PDF selection. -/
theorem handleFileChange_pdf_resets_witness :
    (JSFile.mk ("doc.pdf") ("application/pdf")).type = "application/pdf" ∧
    ((handleFileChange initialState [JSFile.mk ("doc.pdf") ("application/pdf")]).notes = [] ∧
     (handleFileChange initialState [JSFile.mk ("doc.pdf") ("application/pdf")]).currentNote = "" ∧
     (handleFileChange initialState [JSFile.mk ("doc.pdf") ("application/pdf")]).sessionPdfNotes = none ∧
     (handleFileChange initialState [JSFile.mk ("doc.pdf") ("application/pdf")]).pageNum = 1 ∧
     (handleFileChange initialState [JSFile.mk ("doc.pdf") ("application/pdf")]).panPosition = ((0 : ℚ), (0 : ℚ)) ∧
     (handleFileChange initialState [JSFile.mk ("doc.pdf") ("application/pdf")]).error = none ∧
     (handleFileChange initialState [JSFile.mk ("doc.pdf") ("application/pdf")]).pdfDoc = none ∧
     (handleFileChange initialState [JSFile.mk ("doc.pdf") ("application/pdf")]).pdfFile =
       some (JSFile.mk ("doc.pdf") ("application/pdf")))
    := by
  refine ⟨rfl, ?_⟩
  exact handleFileChange_pdf_resets initialState
    (JSFile.mk ("doc.pdf") ("application/pdf")) [] rfl

/-- Claim C10: selecting a non-PDF file only sets the fixed error message;
every other piece of state is untouched. -/
theorem handleFileChange_invalid_type (st : ViewerState) (f : JSFile)
    (rest : List JSFile) (h : f.type ≠ "application/pdf") :
    handleFileChange st (f :: rest) =
      { st with error := some ("Please select a valid PDF file") } := by
  simp only [handleFileChange]
  rw [if_neg h]

/-- Witness for C10 on a concrete text-file selection. -/
theorem handleFileChange_invalid_type_witness :
    (JSFile.mk ("notes.txt") ("text/plain")).type ≠ "application/pdf" ∧
    handleFileChange initialState [JSFile.mk ("notes.txt") ("text/plain")] =
      { initialState with error := some ("Please select a valid PDF file") } :=
  ⟨by decide, handleFileChange_invalid_type initialState
    (JSFile.mk ("notes.txt") ("text/plain")) [] (by decide)⟩

/-- Claim C2 counterexample: `fitToPage` does not clamp.  On a loaded
600x800pt page with a 100x100px container it sets the scale to `1/8`, below
the claimed lower bound `0.5`. -/
theorem fitToPage_scale_below_min :
    (fitToPage fitCexState (some ((100 : ℚ), (100 : ℚ)))).scale = 1/8 ∧
    ¬ (1/2 ≤ (fitToPage fitCexState (some ((100 : ℚ), (100 : ℚ)))).scale) := by
  have hval : (fitToPage fitCexState (some ((100 : ℚ), (100 : ℚ)))).scale =
      min ((100 : ℚ) / 600) ((100 : ℚ) / 800) := rfl
  have hmin : min ((100 : ℚ) / 600) ((100 : ℚ) / 800) = 1/8 := by
    rw [min_eq_right (by norm_num)]
    norm_num
  constructor
  · rw [hval, hmin]
  · rw [hval, hmin]
    norm_num

lemma zoom_step_bounds (st : ViewerState) (op : ZoomOp)
    (h1 : 1/2 ≤ st.scale) (h2 : st.scale ≤ 5) :
    1/2 ≤ (applyZoom st op).scale ∧ (applyZoom st op).scale ≤ 5 := by
  cases op with
  | zin =>
    simp only [applyZoom, zoomIn]
    constructor
    · apply le_min <;> linarith
    · exact min_le_right _ _
  | zout =>
    simp only [applyZoom, zoomOut]
    constructor
    · exact le_max_right _ _
    · apply max_le <;> linarith

/-- Claim C2 (amended): every sequence of `zoomIn`/`zoomOut` operations from
a scale in `[0.5, 5.0]` (in particular from the initial scale `1.0`) keeps
the scale in `[0.5, 5.0]`; `fitToPage` is not clamped to that range. -/
theorem zoom_scale_bounded (ops : List ZoomOp) (st : ViewerState)
    (h1 : 1/2 ≤ st.scale) (h2 : st.scale ≤ 5) :
    1/2 ≤ (runZoom ops st).scale ∧ (runZoom ops st).scale ≤ 5 := by
  induction ops generalizing st with
  | nil => exact ⟨h1, h2⟩
  | cons op rest ih =>
    have hs := zoom_step_bounds st op h1 h2
    exact ih (applyZoom st op) hs.1 hs.2

/-- Witness for the amended C2 from the initial scale. -/
theorem zoom_scale_bounded_witness :
    1/2 ≤ initialState.scale ∧ initialState.scale ≤ 5 ∧
    (1/2 ≤ (runZoom [ZoomOp.zout, ZoomOp.zout, ZoomOp.zin] initialState).scale ∧
     (runZoom [ZoomOp.zout, ZoomOp.zout, ZoomOp.zin] initialState).scale ≤ 5) :=
  ⟨by norm_num [initialState], by norm_num [initialState],
   zoom_scale_bounded [ZoomOp.zout, ZoomOp.zout, ZoomOp.zin] initialState
     (by norm_num [initialState]) (by norm_num [initialState])⟩

lemma goToPage_pageInv (st : ViewerState) (p : Nat) (h : pageInv st) :
    pageInv (goToPage st p) := by
  unfold goToPage
  split
  · next hc => exact ⟨hc.1, hc.2⟩
  · exact h

lemma applyNav_pageInv (st : ViewerState) (op : NavOp) (h : pageInv st) :
    pageInv (applyNav st op) := by
  obtain ⟨h1, h2⟩ := h
  cases op with
  | next =>
    simp only [applyNav]
    unfold goToNextPage
    split
    · next hc =>
      refine ⟨?_, ?_⟩
      · show 1 ≤ st.pageNum + 1
        omega
      · show st.pageNum + 1 ≤ jsOrOne st.numPages
        omega
    · exact ⟨h1, h2⟩
  | prev =>
    simp only [applyNav]
    unfold goToPrevPage
    split
    · next hc =>
      refine ⟨?_, ?_⟩
      · show 1 ≤ st.pageNum - 1
        omega
      · show st.pageNum - 1 ≤ jsOrOne st.numPages
        omega
    · exact ⟨h1, h2⟩
  | goto p =>
    simp only [applyNav]
    exact goToPage_pageInv st p ⟨h1, h2⟩
  | typed s =>
    simp only [applyNav]
    unfold submitPageChange
    split
    · next n heq =>
      exact goToPage_pageInv (handlePageInputChange st s) n ⟨h1, h2⟩
    · exact ⟨h1, h2⟩

/-- Claim C3: from any state satisfying the page-bounds invariant (the total
treated as `1` while unknown), every sequence of navigation operations keeps
the current page in `[1, totalPages]`, and `goToPage` with an out-of-range
target leaves the page unchanged. -/
theorem nav_page_bounds (ops : List NavOp) (st : ViewerState) (h : pageInv st) :
    pageInv (runNav ops st) ∧
    ∀ p, p < 1 ∨ jsOrOne st.numPages < p →
      (goToPage st p).pageNum = st.pageNum := by
  constructor
  · induction ops generalizing st with
    | nil => exact h
    | cons op rest ih => exact ih (applyNav st op) (applyNav_pageInv st op h)
  · intro p hp
    unfold goToPage
    rw [if_neg (by omega)]

/-- Witness for C3 on the loaded demo document. -/
theorem nav_page_bounds_witness :
    pageInv demoState ∧
    (pageInv (runNav
        [NavOp.next, NavOp.next, NavOp.next, NavOp.prev, NavOp.goto 3,
         NavOp.typed ("2"), NavOp.goto 99] demoState) ∧
     ∀ p, p < 1 ∨ jsOrOne demoState.numPages < p →
       (goToPage demoState p).pageNum = demoState.pageNum) :=
  ⟨by decide,
   nav_page_bounds
     [NavOp.next, NavOp.next, NavOp.next, NavOp.prev, NavOp.goto 3,
      NavOp.typed ("2"), NavOp.goto 99] demoState (by decide)⟩

/-- Claim C4: with a loaded document and an existing container, `fitToPage`
sets the scale to the minimum of the two container-to-page ratios, resets the
pan to the origin, and at the new scale the page dimension with the smaller
ratio matches the container dimension exactly. -/
theorem fitToPage_fits_container (st : ViewerState) (doc : PDFDoc)
    (cw ch w h : ℚ) (hdoc : st.pdfDoc = some doc)
    (hpage : doc.getPage st.pageNum = some (w, h)) (hw : 0 < w) (hh : 0 < h) :
    (fitToPage st (some (cw, ch))).scale = min (cw / w) (ch / h) ∧
    (fitToPage st (some (cw, ch))).panPosition = ((0 : ℚ), (0 : ℚ)) ∧
    (cw / w ≤ ch / h → w * (fitToPage st (some (cw, ch))).scale = cw) ∧
    (ch / h ≤ cw / w → h * (fitToPage st (some (cw, ch))).scale = ch) := by
  have hfit : fitToPage st (some (cw, ch)) =
      { st with scale := min (cw / w) (ch / h),
                panPosition := ((0 : ℚ), (0 : ℚ)) } := by
    simp [fitToPage, hdoc, hpage]
  refine ⟨by rw [hfit], by rw [hfit], ?_, ?_⟩
  · intro hle
    rw [hfit]
    show w * min (cw / w) (ch / h) = cw
    rw [min_eq_left hle, mul_comm, div_mul_cancel₀ _ (ne_of_gt hw)]
  · intro hle
    rw [hfit]
    show h * min (cw / w) (ch / h) = ch
    rw [min_eq_right hle, mul_comm, div_mul_cancel₀ _ (ne_of_gt hh)]

/-- Witness for C4: fitting the 600x800pt demo page into a 300x400px
container gives scale `1/2` and makes both dimensions fit exactly. -/
theorem fitToPage_fits_container_witness :
    demoState.pdfDoc = some demoDoc ∧
    demoDoc.getPage demoState.pageNum = some ((600 : ℚ), (800 : ℚ)) ∧
    (0 : ℚ) < 600 ∧ (0 : ℚ) < 800 ∧
    ((fitToPage demoState (some ((300 : ℚ), (400 : ℚ)))).scale =
       min ((300 : ℚ) / 600) ((400 : ℚ) / 800) ∧
     (fitToPage demoState (some ((300 : ℚ), (400 : ℚ)))).panPosition =
       ((0 : ℚ), (0 : ℚ)) ∧
     ((300 : ℚ) / 600 ≤ (400 : ℚ) / 800 →
       600 * (fitToPage demoState (some ((300 : ℚ), (400 : ℚ)))).scale = 300) ∧
     ((400 : ℚ) / 800 ≤ (300 : ℚ) / 600 →
       800 * (fitToPage demoState (some ((300 : ℚ), (400 : ℚ)))).scale = 400)) :=
  ⟨rfl, by decide, by decide, by decide,
   fitToPage_fits_container demoState demoDoc 300 400 600 800 rfl (by decide)
     (by decide) (by decide)⟩

lemma navigateTo_notes (s0 : ViewerState) (p : Nat) :
    (navigateTo s0 p).notes = (pageChangeEffect p s0.notes s0.numPages).2 := rfl

lemma navigateTo_currentNote (s0 : ViewerState) (p : Nat) :
    (navigateTo s0 p).currentNote = (pageChangeEffect p s0.notes s0.numPages).1 := rfl

/-- Arriving on a page whose stored note is an `updateNoteJson` envelope for
that page displays exactly the text written into the envelope. -/
lemma pageChangeEffect_after_update (p : Nat) (notes2 : PageNotes)
    (np np0 : Option Nat) (notes0 : PageNotes) (t : String)
    (h : notesLookup notes2 p = some (updateNoteJson notes0 p np0 t)) :
    pageChangeEffect p notes2 np = (t, notes2) := by
  exact pageChangeEffect_found p notes2 np
    (⟨⟨updateFirst (updateNoteBase notes0 p np0).document.pages p t,
       ⟨max (updateNoteBase notes0 p np0).document.metadata.total_pages
         (jsOrOne np0)⟩⟩⟩)
    ⟨p, t⟩ h (find?_updateFirst _ _ _)

/-- Claim C5: writing an accepted note text `t` on the current page, moving
to a different page `q` and moving back displays `t` again, and each
navigation step leaves the stored note of every non-current page
untouched. -/
theorem notes_survive_navigation (st : ViewerState) (t : String) (q : Nat)
    (hlen : t.length ≤ MAX_NOTE_LENGTH) (hq : q ≠ st.pageNum) :
    (navigateTo (navigateTo (handleNoteChange st t) q) st.pageNum).currentNote
      = t ∧
    (∀ s, s ≠ q →
      notesLookup (navigateTo (handleNoteChange st t) q).notes s =
        notesLookup (handleNoteChange st t).notes s) ∧
    (∀ s, s ≠ st.pageNum →
      notesLookup
          (navigateTo (navigateTo (handleNoteChange st t) q) st.pageNum).notes
          s =
        notesLookup (navigateTo (handleNoteChange st t) q).notes s) := by
  have hN1 : (handleNoteChange st t).notes =
      notesInsert st.notes st.pageNum
        (updateNoteJson st.notes st.pageNum st.numPages t) := by
    simp [handleNoteChange, hlen]
  have hkey2 :
      notesLookup (navigateTo (handleNoteChange st t) q).notes st.pageNum =
        some (updateNoteJson st.notes st.pageNum st.numPages t) := by
    rw [navigateTo_notes,
      pageChangeEffect_preserves_other q st.pageNum
        (handleNoteChange st t).notes (handleNoteChange st t).numPages
        (Ne.symm hq),
      hN1]
    exact notesLookup_insert_self _ _ _
  refine ⟨?_, ?_, ?_⟩
  · rw [navigateTo_currentNote,
      pageChangeEffect_after_update st.pageNum _ _ st.numPages st.notes t hkey2]
  · intro s hs
    rw [navigateTo_notes]
    exact pageChangeEffect_preserves_other q s _ _ hs
  · intro s hs
    rw [navigateTo_notes]
    exact pageChangeEffect_preserves_other st.pageNum s _ _ hs

/-- Witness for C5: write a note on page 1 of the demo document, visit page 2
and come back. -/
theorem notes_survive_navigation_witness :
    ("draft note").length ≤ MAX_NOTE_LENGTH ∧
    (2 : Nat) ≠ demoState.pageNum ∧
    ((navigateTo (navigateTo (handleNoteChange demoState ("draft note")) 2)
        demoState.pageNum).currentNote = ("draft note") ∧
     (∀ s, s ≠ 2 →
       notesLookup
           (navigateTo (handleNoteChange demoState ("draft note")) 2).notes s =
         notesLookup (handleNoteChange demoState ("draft note")).notes s) ∧
     (∀ s, s ≠ demoState.pageNum →
       notesLookup
           (navigateTo
             (navigateTo (handleNoteChange demoState ("draft note")) 2)
             demoState.pageNum).notes s =
         notesLookup
           (navigateTo (handleNoteChange demoState ("draft note")) 2).notes
           s)) :=
  ⟨by decide, by decide,
   notes_survive_navigation demoState ("draft note") 2 (by decide) (by decide)⟩

end PDFViewer
